import Mathlib

/-!
Verification of the CHIRPS raster-to-table kernel.

The program fetches single-band georeferenced rainfall rasters, decodes
them, masks the sentinel value -9999.0, maps pixel indices to
latitude/longitude via linear interpolation, filters the resulting point
set to a bounding box, and attaches a date label to every surviving row.
Batch handlers iterate an inclusive date range, call the transformer once
per date, and keep only the non-empty per-date tables in a date-keyed
mapping.

Numbers are modelled by rationals; the source's numpy float arrays only
undergo exact-representable operations on the inputs considered here
(equality test against the sentinel, linspace interpolation, order
comparisons), so the rational model is faithful to the structure of the
computation.
-/

namespace Chirps

/-- The fixed sentinel marker for missing observations: the source tests
cells with the expression testing equality against -9999.0 before any
other processing. -/
def sentinelValue : ℚ := -9999

/-- A decoded single-band raster: cell values indexed by (row, column)
together with the spatial bounds reported by the reader
(src.bounds.left / right / top / bottom, src.read(1).shape). -/
structure RasterGrid where
  height : ℕ
  width : ℕ
  data : ℕ → ℕ → ℚ
  left : ℚ
  right : ℚ
  top : ℚ
  bottom : ℚ

/-- One row of the produced table; the four fields correspond, in order,
to the DataFrame columns Latitude, Longitude, Value, Date_Range as they
are created in the source (Latitude, Longitude, Value at frame
construction, Date_Range added last). -/
structure PointRecord where
  latitude : ℚ
  longitude : ℚ
  value : ℚ
  dateRange : String
deriving DecidableEq

/-- The serialization order of one row at the export boundary: the
spreadsheet writer emits the DataFrame columns in their creation order
Latitude, Longitude, Value, Date_Range. -/
def PointRecord.toRow (r : PointRecord) : List (ℚ ⊕ String) :=
  [Sum.inl r.latitude, Sum.inl r.longitude, Sum.inl r.value, Sum.inr r.dateRange]

/-- np.linspace a b n: n evenly spaced samples from a to b, both
endpoints included; a single sample is the start point a. -/
def linspace (a b : ℚ) (n : ℕ) : List ℚ :=
  if n = 0 then []
  else if n = 1 then [a]
  else (List.range n).map fun (i : ℕ) => a + (b - a) * (i : ℚ) / ((n : ℚ) - 1)

/-- lat_coords = np.linspace(src.bounds.top, src.bounds.bottom, height). -/
def latCoords (g : RasterGrid) : List ℚ := linspace g.top g.bottom g.height

/-- lon_coords = np.linspace(src.bounds.left, src.bounds.right, width). -/
def lonCoords (g : RasterGrid) : List ℚ := linspace g.left g.right g.width

/-- np.where(band_data == -9999.0, np.nan, band_data): a cell equal to
the sentinel becomes the missing marker (modelled as none), every other
cell is kept unchanged. -/
def maskSentinel (v : ℚ) : Option ℚ :=
  if v = sentinelValue then none else some v

/-- The meshgrid-and-flatten step: row-major
(Latitude, Longitude, masked Value) triples, one per grid cell, where
cell (i, j) receives latitude lat_coords[i] and longitude lon_coords[j]. -/
def flattenedTriples (g : RasterGrid) : List (ℚ × ℚ × Option ℚ) :=
  (List.range g.height).flatMap fun i =>
    (List.range g.width).map fun j =>
      ((latCoords g).getD i 0, (lonCoords g).getD j 0, maskSentinel (g.data i j))

/-- df.dropna(inplace=True): keep exactly the rows whose Value survived
the sentinel masking. -/
def dropMissing (l : List (ℚ × ℚ × Option ℚ)) : List (ℚ × ℚ × ℚ) :=
  l.filterMap fun t =>
    match t.2.2 with
    | none => none
    | some v => some (t.1, t.2.1, v)

/-- The bounding-box predicate of the source filter:
lat_min <= Latitude <= lat_max and lon_min <= Longitude <= lon_max, all
four comparisons inclusive. -/
def inBox (latMin latMax lonMin lonMax : ℚ) (t : ℚ × ℚ × ℚ) : Bool :=
  decide (latMin ≤ t.1) && decide (t.1 ≤ latMax) &&
    decide (lonMin ≤ t.2.1) && decide (t.2.1 ≤ lonMax)

/-- The body of the with-block of get_chirps_data / get_chirps_data_daily:
mask the sentinel, build the coordinate mesh, flatten row-major, drop
missing rows, filter to the bounding box, and attach the date label to
every surviving row. -/
def transformGrid (g : RasterGrid) (latMin latMax lonMin lonMax : ℚ)
    (dateLabel : String) : List PointRecord :=
  (((dropMissing (flattenedTriples g)).filter
      (inBox latMin latMax lonMin lonMax)).map
    fun t => ⟨t.1, t.2.1, t.2.2, dateLabel⟩)

/-- get_chirps_data of chirps_monthly.py. The first argument is the
outcome of the fetch-and-decode prefix of the function body (request,
raise_for_status, rasterio.open): ok carries the decoded grid, error any
raised exception's message. The surrounding try/except returns an empty
DataFrame on any exception; the date label attached on success is the
string interpolation of year and month joined by a dash. -/
def get_chirps_data (res : Except String RasterGrid)
    (latMin latMax lonMin lonMax : ℚ) (year month : String) :
    List PointRecord :=
  match res with
  | Except.ok g => transformGrid g latMin latMax lonMin lonMax (year ++ "-" ++ month)
  | Except.error _ => []

/-- get_chirps_data_daily of chirps_daily_imerg.py and
chirps_daily_era5.py (identical bodies up to the URL used by the fetch
prefix): the date label is the preformatted date string. -/
def get_chirps_data_daily (res : Except String RasterGrid)
    (latMin latMax lonMin lonMax : ℚ) (dateLabel : String) :
    List PointRecord :=
  match res with
  | Except.ok g => transformGrid g latMin latMax lonMin lonMax dateLabel
  | Except.error _ => []

/-- The inclusive day range visited by the daily while-loop
(current_date from start_date to end_date stepping one day), with days
counted as natural numbers. -/
def dateRangeList (s e : ℕ) : List ℕ :=
  (List.range (e + 1 - s)).map fun k => s + k

/-- The daily Proses Data handler of chirps_daily_imerg.py and
chirps_daily_era5.py: reject the request up front when the start date is
after the end date (none, before any fetch), otherwise walk the inclusive
date range, fetch and transform each day, and record a day in the
date-keyed mapping only when its table is non-empty. The mapping is in
insertion order, which is ascending date order. -/
def prosesDataDaily (fetch : ℕ → Except String RasterGrid) (s e : ℕ)
    (latMin latMax lonMin lonMax : ℚ) (label : ℕ → String) :
    Option (List (String × List PointRecord)) :=
  if e < s then none
  else
    some ((dateRangeList s e).filterMap fun d =>
      let df := get_chirps_data_daily (fetch d) latMin latMax lonMin lonMax (label d)
      if df = [] then none else some (label d, df))

/-- combined_df = pd.concat(list(st.session_state.chirps_data.values())):
the per-date tables of the mapping concatenated in insertion order. -/
def combined_df (m : List (String × List PointRecord)) : List PointRecord :=
  m.flatMap Prod.snd

/-- A calendar month handled by the monthly variant, as the pair
(year, month) the handler turns into datetime(year, month, 1). -/
structure YM where
  year : ℕ
  month : ℕ
deriving DecidableEq

/-- Comparison of datetime(a.year, a.month, 1) with
datetime(b.year, b.month, 1): lexicographic on (year, month). -/
def YM.le (a b : YM) : Bool :=
  decide (a.year < b.year ∨ (a.year = b.year ∧ a.month ≤ b.month))

/-- The month increment at the bottom of the monthly while-loop: roll
over to January of the next year after December. -/
def YM.next (a : YM) : YM :=
  if a.month = 12 then ⟨a.year + 1, 1⟩ else ⟨a.year, a.month + 1⟩

/-- The position of a month on the time line, used to size the loop fuel:
YM.next always advances it by exactly one. -/
def YM.idx (a : YM) : ℕ := a.year * 12 + a.month

/-- The zero-padded month string produced by the two-digit format
specifier in the source. -/
def monthStr (m : ℕ) : String :=
  (if m < 10 then "0" else "") ++ toString m

/-- The dictionary key and Date_Range label of the monthly variant:
year and zero-padded month joined by a dash. -/
def monthLabel (a : YM) : String :=
  toString a.year ++ "-" ++ monthStr a.month

/-- The monthly while-loop of the Proses Data handler of
chirps_monthly.py: starting from cur, while cur is not after endD, fetch
and transform the month, record it in the mapping only when its table is
non-empty, then advance to the next month. The extra fuel argument bounds
the recursion; YM.idx endD + 1 - YM.idx cur iterations always suffice. -/
def monthlyLoop (fetch : YM → Except String RasterGrid)
    (latMin latMax lonMin lonMax : ℚ) :
    ℕ → YM → YM → List (String × List PointRecord)
  | 0, _, _ => []
  | fuel + 1, cur, endD =>
    if YM.le cur endD then
      let df := get_chirps_data (fetch cur) latMin latMax lonMin lonMax
        (toString cur.year) (monthStr cur.month)
      (if df = [] then [] else [(monthLabel cur, df)]) ++
        monthlyLoop fetch latMin latMax lonMin lonMax fuel (YM.next cur) endD
    else []

/-- The monthly Proses Data handler of chirps_monthly.py: build the two
datetime endpoints, reject the request up front when the start month is
after the end month (none, before any fetch), otherwise run the monthly
loop over the inclusive month range. -/
def prosesDataMonthly (fetch : YM → Except String RasterGrid)
    (startD endD : YM) (latMin latMax lonMin lonMax : ℚ) :
    Option (List (String × List PointRecord)) :=
  if YM.le startD endD then
    some (monthlyLoop fetch latMin latMax lonMin lonMax
      (YM.idx endD + 1 - YM.idx startD) startD endD)
  else none

/-- The worked 2-by-2 grid: bounds left 100, right 101, top 0, bottom -1,
values row 0 = (5, sentinel), row 1 = (3, 1). -/
def exampleGrid : RasterGrid where
  height := 2
  width := 2
  data := fun i j =>
    if i = 0 then (if j = 0 then 5 else -9999) else (if j = 0 then 3 else 1)
  left := 100
  right := 101
  top := 0
  bottom := -1

/-- A 2-by-2 grid whose every cell is the sentinel. -/
def allSentinelGrid : RasterGrid where
  height := 2
  width := 2
  data := fun _ _ => -9999
  left := 100
  right := 101
  top := 0
  bottom := -1

/-- A single-cell grid with distinct top and bottom bounds. -/
def oneRowGrid : RasterGrid where
  height := 1
  width := 1
  data := fun _ _ => 5
  left := 0
  right := 1
  top := 0
  bottom := -1

theorem linspace_length (a b : ℚ) (n : ℕ) : (linspace a b n).length = n := by
  unfold linspace
  by_cases h0 : n = 0
  · simp [h0]
  · by_cases h1 : n = 1
    · simp [h0, h1]
    · simp [h0, h1]

theorem getD_range_map {α : Type} (f : ℕ → α) (d : α) {n i : ℕ} (h : i < n) :
    (((List.range n).map f).getD i d) = f i := by
  rw [List.getD_eq_getElem?_getD, List.getElem?_map, List.getElem?_range h]
  rfl

theorem linspace_getD (a b : ℚ) {n i : ℕ} (h2 : 2 ≤ n) (hi : i < n) :
    (linspace a b n).getD i 0 = a + (b - a) * (i : ℚ) / ((n : ℚ) - 1) := by
  unfold linspace
  rw [if_neg (by omega), if_neg (by omega)]
  exact getD_range_map _ _ hi

theorem linspace_head (a b : ℚ) {n : ℕ} (h : 1 ≤ n) :
    (linspace a b n).getD 0 0 = a := by
  by_cases h1 : n = 1
  · subst h1; rfl
  · rw [linspace_getD a b (by omega) (by omega)]
    simp

theorem linspace_last (a b : ℚ) {n : ℕ} (h2 : 2 ≤ n) :
    (linspace a b n).getD (n - 1) 0 = b := by
  rw [linspace_getD a b h2 (by omega)]
  have hne : ((n : ℚ) - 1) ≠ 0 := by
    have hn : (2 : ℚ) ≤ (n : ℚ) := by exact_mod_cast h2
    intro hc
    rw [sub_eq_zero] at hc
    rw [hc] at hn
    norm_num at hn
  have hcast : ((n - 1 : ℕ) : ℚ) = (n : ℚ) - 1 := by
    have h1 : 1 ≤ n := by omega
    push_cast [h1]
    ring
  rw [hcast, mul_div_assoc, div_self hne, mul_one]
  ring

theorem length_range_flatMap {α : Type} (F : ℕ → ℕ → α) (h w : ℕ) :
    ((List.range h).flatMap fun i => (List.range w).map (F i)).length = h * w := by
  induction h with
  | zero => simp
  | succ h ih =>
    rw [List.range_succ, List.flatMap_append]
    simp [ih, Nat.succ_mul]

theorem getD_range_flatMap {α : Type} (F : ℕ → ℕ → α) (d : α) (w : ℕ)
    {h i j : ℕ} (hi : i < h) (hj : j < w) :
    (((List.range h).flatMap fun r => (List.range w).map (F r)).getD (i * w + j) d)
      = F i j := by
  induction h with
  | zero => omega
  | succ h ih =>
    rw [List.range_succ, List.flatMap_append]
    by_cases hih : i < h
    · rw [List.getD_append]
      · exact ih hih
      · rw [length_range_flatMap]
        have hmul : (i + 1) * w ≤ h * w := Nat.mul_le_mul_right w hih
        have : i * w + w ≤ h * w := by
          calc i * w + w = (i + 1) * w := by ring
          _ ≤ h * w := hmul
        omega
    · have hieq : i = h := by omega
      subst hieq
      rw [List.getD_append_right]
      · rw [length_range_flatMap]
        have hsub : i * w + j - i * w = j := by omega
        rw [hsub]
        simp only [List.flatMap_cons, List.flatMap_nil, List.append_nil]
        exact getD_range_map _ _ hj
      · rw [length_range_flatMap]
        omega

theorem flattenedTriples_length (g : RasterGrid) :
    (flattenedTriples g).length = g.height * g.width :=
  length_range_flatMap _ g.height g.width

theorem flattenedTriples_getD (g : RasterGrid) {i j : ℕ}
    (hi : i < g.height) (hj : j < g.width) :
    (flattenedTriples g).getD (i * g.width + j) (0, 0, none) =
      ((latCoords g).getD i 0, (lonCoords g).getD j 0, maskSentinel (g.data i j)) :=
  getD_range_flatMap _ _ g.width hi hj

theorem mem_flattenedTriples {g : RasterGrid} {u : ℚ × ℚ × Option ℚ}
    (hu : u ∈ flattenedTriples g) :
    ∃ i j, i < g.height ∧ j < g.width ∧
      u = ((latCoords g).getD i 0, (lonCoords g).getD j 0, maskSentinel (g.data i j)) := by
  simp only [flattenedTriples, List.mem_flatMap, List.mem_map, List.mem_range] at hu
  obtain ⟨i, hi, j, hj, rfl⟩ := hu
  exact ⟨i, j, hi, hj, rfl⟩

theorem maskSentinel_eq_some {v w : ℚ} (h : maskSentinel v = some w) :
    w ≠ sentinelValue := by
  unfold maskSentinel at h
  by_cases hv : v = sentinelValue
  · simp [hv] at h
  · simp [hv] at h
    subst h
    exact hv

theorem mem_dropMissing {l : List (ℚ × ℚ × Option ℚ)} {t : ℚ × ℚ × ℚ}
    (ht : t ∈ dropMissing l) :
    ∃ u ∈ l, u.1 = t.1 ∧ u.2.1 = t.2.1 ∧ u.2.2 = some t.2.2 := by
  simp only [dropMissing, List.mem_filterMap] at ht
  obtain ⟨u, hu, hmatch⟩ := ht
  rcases hv : u.2.2 with _ | v
  · rw [hv] at hmatch
    simp at hmatch
  · rw [hv] at hmatch
    simp only [Option.some.injEq] at hmatch
    subst hmatch
    exact ⟨u, hu, rfl, rfl, by rw [hv]⟩

theorem mem_transformGrid {g : RasterGrid} {latMin latMax lonMin lonMax : ℚ}
    {lbl : String} {r : PointRecord}
    (hr : r ∈ transformGrid g latMin latMax lonMin lonMax lbl) :
    r.value ≠ sentinelValue ∧ latMin ≤ r.latitude ∧ r.latitude ≤ latMax ∧
      lonMin ≤ r.longitude ∧ r.longitude ≤ lonMax ∧ r.dateRange = lbl := by
  simp only [transformGrid, List.mem_map, List.mem_filter] at hr
  obtain ⟨t, ⟨htmem, htbox⟩, rfl⟩ := hr
  simp only [inBox, Bool.and_eq_true, decide_eq_true_eq] at htbox
  obtain ⟨⟨⟨hb1, hb2⟩, hb3⟩, hb4⟩ := htbox
  refine ⟨?_, hb1, hb2, hb3, hb4, rfl⟩
  obtain ⟨u, humem, _, _, hval⟩ := mem_dropMissing htmem
  obtain ⟨i, j, hi, hj, rfl⟩ := mem_flattenedTriples humem
  exact maskSentinel_eq_some hval

theorem getD_mem {α : Type} {l : List α} {i : ℕ} (d : α) (h : i < l.length) :
    l.getD i d ∈ l := by
  rw [List.getD_eq_getElem _ _ h]
  exact List.getElem_mem h

theorem combined_filterMap (l : List ℕ) (f : ℕ → List PointRecord)
    (lab : ℕ → String) :
    combined_df (l.filterMap fun d => if f d = [] then none else some (lab d, f d)) =
      l.flatMap f := by
  induction l with
  | nil => rfl
  | cons a l ih =>
    by_cases h : f a = []
    · have hnone : (if f a = [] then none else some (lab a, f a)) = none := if_pos h
      rw [@List.filterMap_cons_none _ _
        (fun d => if f d = [] then none else some (lab d, f d)) a l hnone,
        List.flatMap_cons, h, List.nil_append]
      exact ih
    · have hsome : (if f a = [] then none else some (lab a, f a)) = some (lab a, f a) :=
        if_neg h
      rw [@List.filterMap_cons_some _ _
        (fun d => if f d = [] then none else some (lab d, f d)) a l _ hsome]
      show ((lab a, f a) :: _).flatMap Prod.snd = (a :: l).flatMap f
      rw [List.flatMap_cons, List.flatMap_cons]
      congr 1

theorem keys_filterMap (l : List ℕ) (f : ℕ → List PointRecord)
    (lab : ℕ → String) :
    ((l.filterMap fun d => if f d = [] then none else some (lab d, f d)).map Prod.fst) =
      (l.filter fun d => decide (f d ≠ [])).map lab := by
  induction l with
  | nil => rfl
  | cons a l ih =>
    by_cases h : f a = []
    · have hnone : (if f a = [] then none else some (lab a, f a)) = none := if_pos h
      rw [@List.filterMap_cons_none _ _
        (fun d => if f d = [] then none else some (lab d, f d)) a l hnone,
        List.filter_cons_of_neg (by simp [h]), ih]
    · have hsome : (if f a = [] then none else some (lab a, f a)) = some (lab a, f a) :=
        if_neg h
      rw [@List.filterMap_cons_some _ _
        (fun d => if f d = [] then none else some (lab d, f d)) a l _ hsome,
        List.filter_cons_of_pos (by simp [h]), List.map_cons, List.map_cons, ih]

theorem monthlyLoop_entry_nonempty {fetch : YM → Except String RasterGrid}
    {latMin latMax lonMin lonMax : ℚ} {fuel : ℕ} {cur endD : YM}
    {q : String × List PointRecord}
    (hq : q ∈ monthlyLoop fetch latMin latMax lonMin lonMax fuel cur endD) :
    q.2 ≠ [] := by
  induction fuel generalizing cur with
  | zero => simp [monthlyLoop] at hq
  | succ fuel ih =>
    rw [monthlyLoop] at hq
    by_cases hle : YM.le cur endD = true
    · rw [if_pos hle, List.mem_append] at hq
      rcases hq with hq | hq
      · by_cases hdf : get_chirps_data (fetch cur) latMin latMax lonMin lonMax
            (toString cur.year) (monthStr cur.month) = []
        · rw [if_pos hdf] at hq
          simp at hq
        · rw [if_neg hdf] at hq
          simp at hq
          rw [hq]
          exact hdf
      · exact ih hq
    · rw [if_neg hle] at hq
      simp at hq

theorem latCoords_example : latCoords exampleGrid = [0, -1] := by
  norm_num [latCoords, exampleGrid, linspace, List.range_succ]

theorem lonCoords_example : lonCoords exampleGrid = [100, 101] := by
  norm_num [lonCoords, exampleGrid, linspace, List.range_succ]

theorem transform_example (lbl : String) :
    transformGrid exampleGrid (-90) 90 (-180) 180 lbl =
      [⟨0, 100, 5, lbl⟩, ⟨-1, 100, 3, lbl⟩, ⟨-1, 101, 1, lbl⟩] := by
  norm_num [transformGrid, flattenedTriples, dropMissing, inBox, latCoords, lonCoords,
    linspace, maskSentinel, sentinelValue, exampleGrid, List.range_succ,
    List.filterMap_cons, List.filter_cons]

theorem transform_example_far (lbl : String) :
    transformGrid exampleGrid 50 60 0 1 lbl = [] := by
  norm_num [transformGrid, flattenedTriples, dropMissing, inBox, latCoords, lonCoords,
    linspace, maskSentinel, sentinelValue, exampleGrid, List.range_succ,
    List.filterMap_cons, List.filter_cons]

/-- C1: for every fetch-and-decode outcome, bounding box and date label,
no row of the table returned by get_chirps_data or get_chirps_data_daily
carries the sentinel -9999 as its Value: sentinel cells are masked and
dropped before row construction. -/
theorem c1_no_sentinel_in_output (res resd : Except String RasterGrid)
    (latMin latMax lonMin lonMax latMin2 latMax2 lonMin2 lonMax2 : ℚ)
    (year month dateLabel : String) (r s : PointRecord)
    (hr : r ∈ get_chirps_data res latMin latMax lonMin lonMax year month)
    (hs : s ∈ get_chirps_data_daily resd latMin2 latMax2 lonMin2 lonMax2 dateLabel) :
    r.value ≠ sentinelValue ∧ s.value ≠ sentinelValue := by
  constructor
  · cases res with
    | error msg => simp [get_chirps_data] at hr
    | ok g => exact (mem_transformGrid hr).1
  · cases resd with
    | error msg => simp [get_chirps_data_daily] at hs
    | ok g => exact (mem_transformGrid hs).1

theorem c1_witness :
    ((⟨0, 100, 5, "2020-03"⟩ : PointRecord) ∈
        get_chirps_data (Except.ok exampleGrid) (-90) 90 (-180) 180 "2020" "03") ∧
      ((⟨0, 100, 5, "2020-03-15"⟩ : PointRecord) ∈
        get_chirps_data_daily (Except.ok exampleGrid) (-90) 90 (-180) 180 "2020-03-15") ∧
      (⟨0, 100, 5, "2020-03"⟩ : PointRecord).value ≠ sentinelValue ∧
      (⟨0, 100, 5, "2020-03-15"⟩ : PointRecord).value ≠ sentinelValue := by
  have hr : (⟨0, 100, 5, "2020-03"⟩ : PointRecord) ∈
      get_chirps_data (Except.ok exampleGrid) (-90) 90 (-180) 180 "2020" "03" := by
    show _ ∈ transformGrid exampleGrid (-90) 90 (-180) 180 ("2020" ++ "-" ++ "03")
    rw [show ("2020" ++ "-" ++ "03" : String) = "2020-03" from rfl, transform_example]
    exact List.mem_cons_self _ _
  have hs : (⟨0, 100, 5, "2020-03-15"⟩ : PointRecord) ∈
      get_chirps_data_daily (Except.ok exampleGrid) (-90) 90 (-180) 180 "2020-03-15" := by
    show _ ∈ transformGrid exampleGrid (-90) 90 (-180) 180 "2020-03-15"
    rw [transform_example]
    exact List.mem_cons_self _ _
  have hmain := c1_no_sentinel_in_output (Except.ok exampleGrid) (Except.ok exampleGrid)
    (-90) 90 (-180) 180 (-90) 90 (-180) 180 "2020" "03" "2020-03-15" _ _ hr hs
  exact ⟨hr, hs, hmain.1, hmain.2⟩

/-- C2: for every fetch-and-decode outcome and valid bounding box, every
row of the returned table lies inside the box, all four bounds
inclusive. -/
theorem c2_bbox_filter_inclusive (res : Except String RasterGrid)
    (latMin latMax lonMin lonMax : ℚ) (year month : String) (r : PointRecord)
    (_hvalid : latMin ≤ latMax ∧ lonMin ≤ lonMax)
    (hr : r ∈ get_chirps_data res latMin latMax lonMin lonMax year month) :
    latMin ≤ r.latitude ∧ r.latitude ≤ latMax ∧
      lonMin ≤ r.longitude ∧ r.longitude ≤ lonMax := by
  cases res with
  | error msg => simp [get_chirps_data] at hr
  | ok g =>
    obtain ⟨-, h1, h2, h3, h4, -⟩ := mem_transformGrid hr
    exact ⟨h1, h2, h3, h4⟩

theorem c2_witness :
    ((-90 : ℚ) ≤ 90 ∧ (-180 : ℚ) ≤ 180) ∧
      ((⟨0, 100, 5, "2020-03"⟩ : PointRecord) ∈
        get_chirps_data (Except.ok exampleGrid) (-90) 90 (-180) 180 "2020" "03") ∧
      ((-90 : ℚ) ≤ (⟨0, 100, 5, "2020-03"⟩ : PointRecord).latitude ∧
        (⟨0, 100, 5, "2020-03"⟩ : PointRecord).latitude ≤ 90 ∧
        (-180 : ℚ) ≤ (⟨0, 100, 5, "2020-03"⟩ : PointRecord).longitude ∧
        (⟨0, 100, 5, "2020-03"⟩ : PointRecord).longitude ≤ 180) := by
  have hv : (-90 : ℚ) ≤ 90 ∧ (-180 : ℚ) ≤ 180 := by norm_num
  have hr : (⟨0, 100, 5, "2020-03"⟩ : PointRecord) ∈
      get_chirps_data (Except.ok exampleGrid) (-90) 90 (-180) 180 "2020" "03" := by
    show _ ∈ transformGrid exampleGrid (-90) 90 (-180) 180 ("2020" ++ "-" ++ "03")
    rw [show ("2020" ++ "-" ++ "03" : String) = "2020-03" from rfl, transform_example]
    exact List.mem_cons_self _ _
  exact ⟨hv, hr, c2_bbox_filter_inclusive (Except.ok exampleGrid)
    (-90) 90 (-180) 180 "2020" "03" _ hv hr⟩

/-- C3 as stated is refuted by a grid of height 1: np.linspace with one
sample returns only the start point, so the last (and only) row maps to
bounds.top, not bounds.bottom, even though height, width are at least 1. -/
theorem c3_counterexample :
    1 ≤ oneRowGrid.height ∧ 1 ≤ oneRowGrid.width ∧
      (latCoords oneRowGrid).getD (oneRowGrid.height - 1) 0 ≠ oneRowGrid.bottom := by
  refine ⟨by decide, by decide, ?_⟩
  rw [show (latCoords oneRowGrid).getD (oneRowGrid.height - 1) 0 = 0 from rfl,
    show oneRowGrid.bottom = -1 from rfl]
  norm_num

/-- C3 amended to grids with height, width at least 2: the coordinate
arrays are linear interpolations with inclusive endpoints, row 0 maps to
bounds.top, the last row to bounds.bottom, column 0 to bounds.left, the
last column to bounds.right, and the row-major flattened triple of cell
(i, j) carries exactly the pair (latitude i, longitude j). -/
theorem c3_coordinate_mesh (g : RasterGrid) (i j : ℕ)
    (hh : 2 ≤ g.height) (hw : 2 ≤ g.width) (hi : i < g.height) (hj : j < g.width) :
    (latCoords g).length = g.height ∧ (lonCoords g).length = g.width ∧
      (latCoords g).getD 0 0 = g.top ∧
      (latCoords g).getD (g.height - 1) 0 = g.bottom ∧
      (lonCoords g).getD 0 0 = g.left ∧
      (lonCoords g).getD (g.width - 1) 0 = g.right ∧
      (latCoords g).getD i 0 =
        g.top + (g.bottom - g.top) * (i : ℚ) / ((g.height : ℚ) - 1) ∧
      (lonCoords g).getD j 0 =
        g.left + (g.right - g.left) * (j : ℚ) / ((g.width : ℚ) - 1) ∧
      (flattenedTriples g).length = g.height * g.width ∧
      (flattenedTriples g).getD (i * g.width + j) (0, 0, none) =
        ((latCoords g).getD i 0, (lonCoords g).getD j 0, maskSentinel (g.data i j)) :=
  ⟨linspace_length _ _ _, linspace_length _ _ _,
    linspace_head _ _ (by omega), linspace_last _ _ hh,
    linspace_head _ _ (by omega), linspace_last _ _ hw,
    linspace_getD _ _ hh hi, linspace_getD _ _ hw hj,
    flattenedTriples_length g, flattenedTriples_getD g hi hj⟩

theorem c3_witness :
    (2 ≤ exampleGrid.height ∧ 2 ≤ exampleGrid.width ∧
        1 < exampleGrid.height ∧ 1 < exampleGrid.width) ∧
      ((latCoords exampleGrid).length = exampleGrid.height ∧
        (lonCoords exampleGrid).length = exampleGrid.width ∧
        (latCoords exampleGrid).getD 0 0 = exampleGrid.top ∧
        (latCoords exampleGrid).getD (exampleGrid.height - 1) 0 = exampleGrid.bottom ∧
        (lonCoords exampleGrid).getD 0 0 = exampleGrid.left ∧
        (lonCoords exampleGrid).getD (exampleGrid.width - 1) 0 = exampleGrid.right ∧
        (latCoords exampleGrid).getD 1 0 =
          exampleGrid.top + (exampleGrid.bottom - exampleGrid.top) * (1 : ℚ) /
            ((exampleGrid.height : ℚ) - 1) ∧
        (lonCoords exampleGrid).getD 1 0 =
          exampleGrid.left + (exampleGrid.right - exampleGrid.left) * (1 : ℚ) /
            ((exampleGrid.width : ℚ) - 1) ∧
        (flattenedTriples exampleGrid).length = exampleGrid.height * exampleGrid.width ∧
        (flattenedTriples exampleGrid).getD (1 * exampleGrid.width + 1) (0, 0, none) =
          ((latCoords exampleGrid).getD 1 0, (lonCoords exampleGrid).getD 1 0,
            maskSentinel (exampleGrid.data 1 1))) := by
  have h := c3_coordinate_mesh exampleGrid 1 1 (by decide) (by decide) (by decide) (by decide)
  have hc : ((1 : ℕ) : ℚ) = (1 : ℚ) := by norm_num
  rw [hc] at h
  exact ⟨⟨by decide, by decide, by decide, by decide⟩, h⟩

/-- C4 is refuted: the error branch of get_chirps_data returns the very
same empty table as a successful transform whose bounding box keeps no
point, so the caller cannot tell the decode-failure outcome apart from
the valid no-data outcome by the returned value. -/
theorem c4_counterexample :
    get_chirps_data (Except.error "corrupt bytes") 50 60 0 1 "2020" "03" =
      get_chirps_data (Except.ok exampleGrid) 50 60 0 1 "2020" "03" := by
  show ([] : List PointRecord) = transformGrid exampleGrid 50 60 0 1 ("2020" ++ "-" ++ "03")
  rw [transform_example_far]

/-- C4 amended: a fetch or decode failure is caught by the single
try/except wrapping the transformer body and surfaced as an empty table
rather than an uncaught exception; the returned value is
indistinguishable from the valid no-data-in-range empty table. -/
theorem c4_decode_failure_yields_empty (msg : String)
    (latMin latMax lonMin lonMax : ℚ) (year month dateLabel : String) :
    get_chirps_data (Except.error msg) latMin latMax lonMin lonMax year month = [] ∧
      get_chirps_data_daily (Except.error msg) latMin latMax lonMin lonMax dateLabel = [] :=
  ⟨rfl, rfl⟩

/-- C8: on the worked 2-by-2 grid with bounds left 100, right 101, top 0,
bottom -1, values ((5, sentinel), (3, 1)) and an unrestrictive bounding
box, the transformer returns exactly the three rows (0, 100, 5),
(-1, 100, 3), (-1, 101, 1); the sentinel cell at (0, 101) is dropped. -/
theorem c8_worked_example (lbl : String) :
    transformGrid exampleGrid (-90) 90 (-180) 180 lbl =
      [⟨0, 100, 5, lbl⟩, ⟨-1, 100, 3, lbl⟩, ⟨-1, 101, 1, lbl⟩] :=
  transform_example lbl

/-- C9: the rows of every successfully produced table serialize with the
four fields in the column order Latitude, Longitude, Value, Date_Range,
and the Date_Range field of every row of one table is the single date
label of that table. -/
theorem c9_columns_and_uniform_label (res resd : Except String RasterGrid)
    (latMin latMax lonMin lonMax latMin2 latMax2 lonMin2 lonMax2 : ℚ)
    (year month dateLabel : String) (r s : PointRecord)
    (hr : r ∈ get_chirps_data res latMin latMax lonMin lonMax year month)
    (hs : s ∈ get_chirps_data_daily resd latMin2 latMax2 lonMin2 lonMax2 dateLabel) :
    r.dateRange = year ++ "-" ++ month ∧ s.dateRange = dateLabel ∧
      r.toRow = [Sum.inl r.latitude, Sum.inl r.longitude, Sum.inl r.value,
        Sum.inr (year ++ "-" ++ month)] ∧
      s.toRow = [Sum.inl s.latitude, Sum.inl s.longitude, Sum.inl s.value,
        Sum.inr dateLabel] := by
  have h1 : r.dateRange = year ++ "-" ++ month := by
    cases res with
    | error msg => simp [get_chirps_data] at hr
    | ok g => exact (mem_transformGrid hr).2.2.2.2.2
  have h2 : s.dateRange = dateLabel := by
    cases resd with
    | error msg => simp [get_chirps_data_daily] at hs
    | ok g => exact (mem_transformGrid hs).2.2.2.2.2
  refine ⟨h1, h2, ?_, ?_⟩
  · rw [PointRecord.toRow, h1]
  · rw [PointRecord.toRow, h2]

theorem c9_witness :
    ((⟨0, 100, 5, "2020-03"⟩ : PointRecord) ∈
        get_chirps_data (Except.ok exampleGrid) (-90) 90 (-180) 180 "2020" "03") ∧
      ((⟨-1, 100, 3, "2020-03-15"⟩ : PointRecord) ∈
        get_chirps_data_daily (Except.ok exampleGrid) (-90) 90 (-180) 180 "2020-03-15") ∧
      (⟨0, 100, 5, "2020-03"⟩ : PointRecord).dateRange = "2020" ++ "-" ++ "03" ∧
      (⟨-1, 100, 3, "2020-03-15"⟩ : PointRecord).dateRange = "2020-03-15" ∧
      (⟨0, 100, 5, "2020-03"⟩ : PointRecord).toRow =
        [Sum.inl 0, Sum.inl 100, Sum.inl 5, Sum.inr ("2020" ++ "-" ++ "03")] ∧
      (⟨-1, 100, 3, "2020-03-15"⟩ : PointRecord).toRow =
        [Sum.inl (-1), Sum.inl 100, Sum.inl 3, Sum.inr "2020-03-15"] := by
  have hr : (⟨0, 100, 5, "2020-03"⟩ : PointRecord) ∈
      get_chirps_data (Except.ok exampleGrid) (-90) 90 (-180) 180 "2020" "03" := by
    show _ ∈ transformGrid exampleGrid (-90) 90 (-180) 180 ("2020" ++ "-" ++ "03")
    rw [show ("2020" ++ "-" ++ "03" : String) = "2020-03" from rfl, transform_example]
    exact List.mem_cons_self _ _
  have hs : (⟨-1, 100, 3, "2020-03-15"⟩ : PointRecord) ∈
      get_chirps_data_daily (Except.ok exampleGrid) (-90) 90 (-180) 180 "2020-03-15" := by
    show _ ∈ transformGrid exampleGrid (-90) 90 (-180) 180 "2020-03-15"
    rw [transform_example]
    exact List.mem_cons.mpr (Or.inr (List.mem_cons_self _ _))
  have h := c9_columns_and_uniform_label (Except.ok exampleGrid) (Except.ok exampleGrid)
    (-90) 90 (-180) 180 (-90) 90 (-180) 180 "2020" "03" "2020-03-15" _ _ hr hs
  exact ⟨hr, hs, h.1, h.2.1, h.2.2.1, h.2.2.2⟩

/-- C5: for every inclusive date range with start not after end, the
daily batch handler succeeds with a result mapping; the combined export
table is exactly the concatenation, in ascending date order, of the
per-date tables over the whole range, so a date whose fetch fails
contributes nothing (its table is empty) while the remaining dates all
contribute their points. -/
theorem c5_batch_partial_result (fetch : ℕ → Except String RasterGrid) (s e : ℕ)
    (latMin latMax lonMin lonMax : ℚ) (label : ℕ → String) (hse : s ≤ e) :
    ∃ m, prosesDataDaily fetch s e latMin latMax lonMin lonMax label = some m ∧
      combined_df m = (dateRangeList s e).flatMap
        (fun d => get_chirps_data_daily (fetch d) latMin latMax lonMin lonMax (label d)) ∧
      List.Pairwise (fun d1 d2 => d1 < d2) (dateRangeList s e) ∧
      ∀ d msg, fetch d = Except.error msg →
        get_chirps_data_daily (fetch d) latMin latMax lonMin lonMax (label d) = [] := by
  refine ⟨(dateRangeList s e).filterMap fun d =>
    if get_chirps_data_daily (fetch d) latMin latMax lonMin lonMax (label d) = []
    then none
    else some (label d,
      get_chirps_data_daily (fetch d) latMin latMax lonMin lonMax (label d)),
    ?_, ?_, ?_, ?_⟩
  · simp only [prosesDataDaily]
    rw [if_neg (by omega)]
  · exact combined_filterMap _ _ _
  · exact List.Pairwise.map _ (fun a b h => by omega) (List.pairwise_lt_range _)
  · intro d msg hmsg
    rw [hmsg]
    rfl

/-- The concrete fetch outcome used to witness the batch claims: day 4
fails, every other day decodes to the worked 2-by-2 grid. -/
def witnessFetch : ℕ → Except String RasterGrid :=
  fun d => if d = 4 then Except.error "network failure" else Except.ok exampleGrid

theorem c5_witness :
    3 ≤ 5 ∧
      (∃ m, prosesDataDaily witnessFetch 3 5 (-90) 90 (-180) 180 (fun _ => "day") = some m ∧
        combined_df m = (dateRangeList 3 5).flatMap
          (fun d => get_chirps_data_daily (witnessFetch d) (-90) 90 (-180) 180 "day") ∧
        List.Pairwise (fun d1 d2 => d1 < d2) (dateRangeList 3 5) ∧
        ∀ d msg, witnessFetch d = Except.error msg →
          get_chirps_data_daily (witnessFetch d) (-90) 90 (-180) 180 "day" = []) :=
  ⟨by omega, c5_batch_partial_result witnessFetch 3 5 (-90) 90 (-180) 180
    (fun _ => "day") (by omega)⟩

/-- C6: when the start date is after the end date, both the monthly and
the daily Proses Data handlers reject the request up front with the
error outcome, and the result does not depend on the fetch collaborator
at all, so no fetch and no per-date iteration happens. -/
theorem c6_upfront_validation (fetchM fetchM2 : YM → Except String RasterGrid)
    (fetchD fetchD2 : ℕ → Except String RasterGrid) (startD endD : YM) (s e : ℕ)
    (latMin latMax lonMin lonMax : ℚ) (label label2 : ℕ → String)
    (hm : YM.le startD endD = false) (hd : e < s) :
    prosesDataMonthly fetchM startD endD latMin latMax lonMin lonMax = none ∧
      prosesDataMonthly fetchM startD endD latMin latMax lonMin lonMax =
        prosesDataMonthly fetchM2 startD endD latMin latMax lonMin lonMax ∧
      prosesDataDaily fetchD s e latMin latMax lonMin lonMax label = none ∧
      prosesDataDaily fetchD s e latMin latMax lonMin lonMax label =
        prosesDataDaily fetchD2 s e latMin latMax lonMin lonMax label2 := by
  have h1 : ∀ f : YM → Except String RasterGrid,
      prosesDataMonthly f startD endD latMin latMax lonMin lonMax = none := by
    intro f
    simp [prosesDataMonthly, hm]
  have h2 : ∀ (f : ℕ → Except String RasterGrid) (lab : ℕ → String),
      prosesDataDaily f s e latMin latMax lonMin lonMax lab = none := by
    intro f lab
    simp [prosesDataDaily, hd]
  exact ⟨h1 fetchM, by rw [h1 fetchM, h1 fetchM2], h2 fetchD label,
    by rw [h2 fetchD label, h2 fetchD2 label2]⟩

theorem c6_witness :
    YM.le ⟨2021, 1⟩ ⟨2020, 12⟩ = false ∧ 3 < 5 ∧
      (prosesDataMonthly (fun _ => Except.error "never used") ⟨2021, 1⟩ ⟨2020, 12⟩
          (-90) 90 (-180) 180 = none ∧
        prosesDataMonthly (fun _ => Except.error "never used") ⟨2021, 1⟩ ⟨2020, 12⟩
            (-90) 90 (-180) 180 =
          prosesDataMonthly (fun _ => Except.ok exampleGrid) ⟨2021, 1⟩ ⟨2020, 12⟩
            (-90) 90 (-180) 180 ∧
        prosesDataDaily (fun _ => Except.error "never used") 5 3
          (-90) 90 (-180) 180 (fun _ => "day") = none ∧
        prosesDataDaily (fun _ => Except.error "never used") 5 3
            (-90) 90 (-180) 180 (fun _ => "day") =
          prosesDataDaily (fun _ => Except.ok exampleGrid) 5 3
            (-90) 90 (-180) 180 (fun _ => "other")) :=
  ⟨by decide, by omega,
    c6_upfront_validation (fun _ => Except.error "never used")
      (fun _ => Except.ok exampleGrid) (fun _ => Except.error "never used")
      (fun _ => Except.ok exampleGrid) ⟨2021, 1⟩ ⟨2020, 12⟩ 5 3
      (-90) 90 (-180) 180 (fun _ => "day") (fun _ => "other")
      (by decide) (by omega)⟩

/-- C7: the transformer returns an empty table, and does not fail, both
when the bounding box excludes every coordinate pair of the grid and
when every cell of the grid is the sentinel. -/
theorem c7_empty_table_outcomes (g : RasterGrid) (latMin latMax lonMin lonMax : ℚ)
    (lbl : String) :
    ((∀ la, la ∈ latCoords g → ∀ lo, lo ∈ lonCoords g →
        ¬(latMin ≤ la ∧ la ≤ latMax ∧ lonMin ≤ lo ∧ lo ≤ lonMax)) →
      transformGrid g latMin latMax lonMin lonMax lbl = []) ∧
    ((∀ i j, i < g.height → j < g.width → g.data i j = sentinelValue) →
      transformGrid g latMin latMax lonMin lonMax lbl = []) := by
  constructor
  · intro hout
    have hfilter : (dropMissing (flattenedTriples g)).filter
        (inBox latMin latMax lonMin lonMax) = [] := by
      rw [List.filter_eq_nil_iff]
      intro t ht
      obtain ⟨u, hu, h1, h2, -⟩ := mem_dropMissing ht
      obtain ⟨i, j, hi, hj, rfl⟩ := mem_flattenedTriples hu
      intro hbox
      simp only [inBox, Bool.and_eq_true, decide_eq_true_eq] at hbox
      obtain ⟨⟨⟨hb1, hb2⟩, hb3⟩, hb4⟩ := hbox
      have hlat : t.1 ∈ latCoords g := by
        rw [← h1]
        exact getD_mem 0 (by rw [latCoords, linspace_length]; exact hi)
      have hlon : t.2.1 ∈ lonCoords g := by
        rw [← h2]
        exact getD_mem 0 (by rw [lonCoords, linspace_length]; exact hj)
      exact hout t.1 hlat t.2.1 hlon ⟨hb1, hb2, hb3, hb4⟩
    simp only [transformGrid]
    rw [hfilter]
    rfl
  · intro hall
    have hdrop : dropMissing (flattenedTriples g) = [] := by
      rw [dropMissing, List.filterMap_eq_nil_iff]
      intro u hu
      obtain ⟨i, j, hi, hj, rfl⟩ := mem_flattenedTriples hu
      simp [maskSentinel, hall i j hi hj]
    simp only [transformGrid]
    rw [hdrop]
    rfl

theorem c7_witness :
    ((∀ la, la ∈ latCoords exampleGrid → ∀ lo, lo ∈ lonCoords exampleGrid →
        ¬((50 : ℚ) ≤ la ∧ la ≤ 60 ∧ (0 : ℚ) ≤ lo ∧ lo ≤ 1)) ∧
      transformGrid exampleGrid 50 60 0 1 "2020-01" = []) ∧
    ((∀ i j, i < allSentinelGrid.height → j < allSentinelGrid.width →
        allSentinelGrid.data i j = sentinelValue) ∧
      transformGrid allSentinelGrid (-90) 90 (-180) 180 "2020-01" = []) := by
  have hexc : ∀ la, la ∈ latCoords exampleGrid → ∀ lo, lo ∈ lonCoords exampleGrid →
      ¬((50 : ℚ) ≤ la ∧ la ≤ 60 ∧ (0 : ℚ) ≤ lo ∧ lo ≤ 1) := by
    rw [latCoords_example, lonCoords_example]
    intro la hla lo hlo
    simp only [List.mem_cons, List.mem_singleton] at hla
    rcases hla with rfl | hla
    · norm_num
    · rcases hla with rfl | hla
      · norm_num
      · simp at hla
  have hsent : ∀ i j, i < allSentinelGrid.height → j < allSentinelGrid.width →
      allSentinelGrid.data i j = sentinelValue := fun _ _ _ _ => rfl
  exact ⟨⟨hexc, (c7_empty_table_outcomes exampleGrid 50 60 0 1 "2020-01").1 hexc⟩,
    ⟨hsent, (c7_empty_table_outcomes allSentinelGrid (-90) 90 (-180) 180 "2020-01").2 hsent⟩⟩

/-- C10: the date-keyed result mapping of every batch run contains only
non-empty per-date tables; its keys are exactly the labels of the dates
whose table came back non-empty, so a date whose fetch failed and a date
with zero matching points are both absent and indistinguishable there. -/
theorem c10_nonempty_mapping_invariant (fetchD : ℕ → Except String RasterGrid)
    (fetchM : YM → Except String RasterGrid) (s e fuel : ℕ) (cur endD : YM)
    (latMin latMax lonMin lonMax : ℚ) (label : ℕ → String)
    (m : List (String × List PointRecord)) (p q : String × List PointRecord)
    (hm : prosesDataDaily fetchD s e latMin latMax lonMin lonMax label = some m)
    (hp : p ∈ m)
    (hq : q ∈ monthlyLoop fetchM latMin latMax lonMin lonMax fuel cur endD) :
    p.2 ≠ [] ∧ q.2 ≠ [] ∧
      m.map Prod.fst = ((dateRangeList s e).filter fun d =>
        decide (get_chirps_data_daily (fetchD d) latMin latMax lonMin lonMax
          (label d) ≠ [])).map label := by
  simp only [prosesDataDaily] at hm
  by_cases hse : e < s
  · rw [if_pos hse] at hm
    cases hm
  · rw [if_neg hse] at hm
    have hmeq := Option.some.inj hm
    subst hmeq
    refine ⟨?_, monthlyLoop_entry_nonempty hq, keys_filterMap _ _ _⟩
    rw [List.mem_filterMap] at hp
    obtain ⟨d, -, hd⟩ := hp
    by_cases hdf : get_chirps_data_daily (fetchD d) latMin latMax lonMin lonMax
        (label d) = []
    · rw [if_pos hdf] at hd
      cases hd
    · rw [if_neg hdf] at hd
      have := Option.some.inj hd
      subst this
      exact hdf

theorem c10_witness :
    (prosesDataDaily (fun _ => Except.ok exampleGrid) 3 3 (-90) 90 (-180) 180
        (fun _ => "day") =
      some [("day", [⟨0, 100, 5, "day"⟩, ⟨-1, 100, 3, "day"⟩, ⟨-1, 101, 1, "day"⟩])]) ∧
    (("day", [(⟨0, 100, 5, "day"⟩ : PointRecord), ⟨-1, 100, 3, "day"⟩,
        ⟨-1, 101, 1, "day"⟩]) ∈
      [("day", [(⟨0, 100, 5, "day"⟩ : PointRecord), ⟨-1, 100, 3, "day"⟩,
        ⟨-1, 101, 1, "day"⟩])]) ∧
    ((monthLabel ⟨2020, 1⟩,
        [(⟨0, 100, 5, "2020-01"⟩ : PointRecord), ⟨-1, 100, 3, "2020-01"⟩,
          ⟨-1, 101, 1, "2020-01"⟩]) ∈
      monthlyLoop (fun _ => Except.ok exampleGrid) (-90) 90 (-180) 180 1
        ⟨2020, 1⟩ ⟨2020, 1⟩) ∧
    (("day", [(⟨0, 100, 5, "day"⟩ : PointRecord), ⟨-1, 100, 3, "day"⟩,
        ⟨-1, 101, 1, "day"⟩]).2 ≠ [] ∧
      (monthLabel ⟨2020, 1⟩,
        [(⟨0, 100, 5, "2020-01"⟩ : PointRecord), ⟨-1, 100, 3, "2020-01"⟩,
          ⟨-1, 101, 1, "2020-01"⟩]).2 ≠ [] ∧
      [("day", [(⟨0, 100, 5, "day"⟩ : PointRecord), ⟨-1, 100, 3, "day"⟩,
          ⟨-1, 101, 1, "day"⟩])].map Prod.fst =
        ((dateRangeList 3 3).filter fun d =>
          decide (get_chirps_data_daily ((fun _ => Except.ok exampleGrid) d)
            (-90) 90 (-180) 180 ((fun _ => "day") d) ≠ [])).map (fun _ => "day")) := by
  have hm : prosesDataDaily (fun _ => Except.ok exampleGrid) 3 3 (-90) 90 (-180) 180
      (fun _ => "day") =
      some [("day", [⟨0, 100, 5, "day"⟩, ⟨-1, 100, 3, "day"⟩, ⟨-1, 101, 1, "day"⟩])] := by
    have htab : get_chirps_data_daily (Except.ok exampleGrid) (-90) 90 (-180) 180 "day" =
        [⟨0, 100, 5, "day"⟩, ⟨-1, 100, 3, "day"⟩, ⟨-1, 101, 1, "day"⟩] :=
      transform_example "day"
    simp only [prosesDataDaily]
    rw [if_neg (by omega), show dateRangeList 3 3 = [3] from rfl]
    simp [htab]
  have hp : ("day", [(⟨0, 100, 5, "day"⟩ : PointRecord), ⟨-1, 100, 3, "day"⟩,
      ⟨-1, 101, 1, "day"⟩]) ∈
      [("day", [(⟨0, 100, 5, "day"⟩ : PointRecord), ⟨-1, 100, 3, "day"⟩,
        ⟨-1, 101, 1, "day"⟩])] := List.mem_cons_self _ _
  have hq : (monthLabel ⟨2020, 1⟩,
      [(⟨0, 100, 5, "2020-01"⟩ : PointRecord), ⟨-1, 100, 3, "2020-01"⟩,
        ⟨-1, 101, 1, "2020-01"⟩]) ∈
      monthlyLoop (fun _ => Except.ok exampleGrid) (-90) 90 (-180) 180 1
        ⟨2020, 1⟩ ⟨2020, 1⟩ := by
    have htab : get_chirps_data (Except.ok exampleGrid) (-90) 90 (-180) 180
        (toString (2020 : ℕ)) (monthStr 1) =
        [⟨0, 100, 5, "2020-01"⟩, ⟨-1, 100, 3, "2020-01"⟩, ⟨-1, 101, 1, "2020-01"⟩] := by
      show transformGrid exampleGrid (-90) 90 (-180) 180
        (toString (2020 : ℕ) ++ "-" ++ monthStr 1) = _
      rw [show (toString (2020 : ℕ) ++ "-" ++ monthStr 1 : String) = "2020-01" from rfl]
      exact transform_example "2020-01"
    rw [monthlyLoop]
    rw [if_pos (by decide)]
    rw [htab]
    simp [monthlyLoop]
  exact ⟨hm, hp, hq, c10_nonempty_mapping_invariant (fun _ => Except.ok exampleGrid)
    (fun _ => Except.ok exampleGrid) 3 3 1 ⟨2020, 1⟩ ⟨2020, 1⟩
    (-90) 90 (-180) 180 (fun _ => "day") _ _ _ hm hp hq⟩

end Chirps
